import Mathlib

/-!
Verification development for the `video-game-idea` repository.

The repository consists of `character.py` (characters and skills),
`realm.py` (realms, counties, faiths, cultures) and a pygame front end.
The specification additionally documents a `PopulationLedger` demographic
component whose implementation is not present among the source files;
that component is modelled here directly from the specification text,
while everything else is embedded from the Python source.

Conventions of the embedding:
 * Python `int` becomes `ℤ` (`ℕ` where the value is an identifier).
 * Python floats used as rates are modelled as `ℚ` for the stored data
   and cast to `ℝ` where the spec's `exp` formula is evaluated.
 * A fallible operation returns `Except` / `Option`.
 * Python object identity (for the default-argument aliasing question)
   is modelled by an allocation counter: every constructed object gets a
   fresh numeric id, mirroring `uuid4().hex` producing fresh ids.
-/

namespace VideoGameIdea

/-! ## Population ledger (modelled from the spec, §3–§4.1)

Modelled from the spec: the repository contains no `PopulationLedger`
source file; the definitions in this section transcribe the data model
of spec §3 and the algorithm of spec §4.1 step by step. -/

/-- Modelled from the spec: enumerated life-stage bucket
(`children`, `adults`, `elders`). -/
inductive Cohort where
  | children
  | adults
  | elders
deriving DecidableEq, Fintype

/-- Modelled from the spec: per-tick report recording each flow's
integer magnitude (spec §4.1 step 5). -/
structure FlowReport where
  births : ℤ
  agedChildrenToAdults : ℤ
  agedAdultsToElders : ℤ
  deathsChildren : ℤ
  deathsAdults : ℤ
  deathsElders : ℤ
deriving DecidableEq

/-- Modelled from the spec: the ledger owning per-cohort counts and the
rate/weight tables (spec §3). -/
structure Ledger where
  counts : Cohort → ℤ
  fertilityPerAdultPerYear : ℚ
  mortalityPerYear : Cohort → ℚ
  yearsInGroup : Cohort → ℚ
  workforceWeight : Cohort → ℚ
  taxWeight : Cohort → ℚ
  manpowerWeight : Cohort → ℚ

/-- Modelled from the spec: the per-flow expectation
`count * (1 - exp(-rate*dt))`, truncated toward zero, with the edge rule
of spec §4.1: a non-positive count, rate or dt forces the flow to 0. -/
noncomputable def expectedEvents (count : ℤ) (rate dt : ℚ) : ℤ :=
  if count ≤ 0 ∨ rate ≤ 0 ∨ dt ≤ 0 then 0
  else ⌊(count : ℝ) * (1 - Real.exp (-((rate : ℝ) * (dt : ℝ))))⌋

/-- Modelled from the spec: `tick(deltaDays)` (spec §4.1): convert to
years, births into children, aging children→adults then adults→elders
(the second aging uses the post-aging-in adult count), then per-cohort
deaths, in the fixed order births → aging → deaths. -/
noncomputable def tick (L : Ledger) (deltaDays : ℚ) : Ledger × FlowReport :=
  let dtYears := deltaDays / 365
  let births := expectedEvents (L.counts .adults) L.fertilityPerAdultPerYear dtYears
  let childrenB := L.counts .children + births
  let agedCA := expectedEvents childrenB (1 / L.yearsInGroup .children) dtYears
  let adultsIn := L.counts .adults + agedCA
  let agedAE := expectedEvents adultsIn (1 / L.yearsInGroup .adults) dtYears
  let childrenAged := childrenB - agedCA
  let adultsAged := adultsIn - agedAE
  let eldersAged := L.counts .elders + agedAE
  let dC := expectedEvents childrenAged (L.mortalityPerYear .children) dtYears
  let dA := expectedEvents adultsAged (L.mortalityPerYear .adults) dtYears
  let dE := expectedEvents eldersAged (L.mortalityPerYear .elders) dtYears
  (⟨fun c => match c with
      | .children => childrenAged - dC
      | .adults => adultsAged - dA
      | .elders => eldersAged - dE,
    L.fertilityPerAdultPerYear, L.mortalityPerYear, L.yearsInGroup,
    L.workforceWeight, L.taxWeight, L.manpowerWeight⟩,
   ⟨births, agedCA, agedAE, dC, dA, dE⟩)

/-- Modelled from the spec: the two error kinds of spec §7. -/
inductive LedgerError where
  | invalidArgument
deriving DecidableEq

/-- Modelled from the spec: `add(cohort, delta)` adjusts the count by a
signed delta and fails with `InvalidArgument` if the result would be
negative (spec §4.1). -/
def Ledger.add (L : Ledger) (c : Cohort) (delta : ℤ) : Except LedgerError Ledger :=
  if L.counts c + delta < 0 then .error .invalidArgument
  else .ok { L with counts := Function.update L.counts c (L.counts c + delta) }

/-- Modelled from the spec: `set(cohort, amount)` replaces the count and
fails with `InvalidArgument` if `amount < 0` (spec §4.1). -/
def Ledger.replaceCount (L : Ledger) (c : Cohort) (amount : ℤ) : Except LedgerError Ledger :=
  if amount < 0 then .error .invalidArgument
  else .ok { L with counts := Function.update L.counts c amount }

/-- Modelled from the spec: `total()` is the sum of all cohort counts. -/
def Ledger.total (L : Ledger) : ℤ := ∑ c : Cohort, L.counts c

/-- Modelled from the spec: the result record of `contributions()`
(spec §4.1); `dependencyRatio` is a tagged-undefined sentinel (`none`)
when `adults = 0`, per spec §7's `UndefinedRatio` soft condition. -/
structure Contributions where
  workforce : ℚ
  taxBase : ℚ
  manpowerBase : ℚ
  dependencyRatio : Option ℚ
deriving DecidableEq

/-- Modelled from the spec: `contributions()` — weighted sums of counts
times the weight tables, plus the dependency ratio with its `adults = 0`
sentinel. -/
def contributions (L : Ledger) : Contributions where
  workforce := ∑ c : Cohort, (L.counts c : ℚ) * L.workforceWeight c
  taxBase := ∑ c : Cohort, (L.counts c : ℚ) * L.taxWeight c
  manpowerBase := ∑ c : Cohort, (L.counts c : ℚ) * L.manpowerWeight c
  dependencyRatio :=
    if L.counts .adults = 0 then none
    else some (((L.counts .children + L.counts .elders : ℤ) : ℚ) / (L.counts .adults : ℚ))

/-- Modelled from the spec: the mutating calls a host may issue on a
ledger (`add` adjustments and `tick`, spec §3 lifecycle). -/
inductive LedgerOp where
  | add (c : Cohort) (delta : ℤ)
  | tick (deltaDays : ℚ)

/-- Modelled from the spec: one mutating call; a failed `add` raises
`InvalidArgument` and is rejected in full, leaving the ledger unchanged
(spec §7). -/
noncomputable def applyLedgerOp (L : Ledger) : LedgerOp → Ledger
  | .add c delta =>
      match Ledger.add L c delta with
      | .ok L2 => L2
      | .error _ => L
  | .tick d => (tick L d).1

/-- Modelled from the spec: a sequence of mutating calls applied in
order. -/
noncomputable def applyLedgerOps (L : Ledger) (ops : List LedgerOp) : Ledger :=
  ops.foldl applyLedgerOp L

/-! ## Faiths, cultures, counties, realms (embedded from `realm.py`)

Python object identity matters for the default-argument question, so
every constructed object carries a numeric id drawn from an allocation
counter, mirroring `id = field(default_factory=new_id)` where `new_id`
returns a fresh `uuid4().hex`. A dataclass field declared with
`field(default_factory=...)` evaluates its factory at every
instantiation, in field-declaration order. -/

/-- `Faith` dataclass: `id`, `name`, `tenets`, `doctrines`. -/
structure Faith where
  id : ℕ
  name : String
  tenets : List String
  doctrines : List (String × String)
deriving DecidableEq

/-- `Culture` dataclass: `id`, `name`, `ethos`, `traditions`,
`language`, `innovations`. -/
structure Culture where
  id : ℕ
  name : String
  ethos : String
  traditions : List String
  language : String
  innovations : List String
deriving DecidableEq

/-- `County` dataclass; `holder` is a `Character` modelled by id. -/
structure County where
  id : ℕ
  name : String
  culture : Culture
  faith : Faith
  development : ℤ
  control : ℚ
  holder : Option ℕ
  realm_id : Option ℕ
deriving DecidableEq

/-- Default construction `Faith()`: fresh id, `name="No Faith"`, empty
tenets and doctrines. -/
def mkFaith (s : ℕ) : ℕ × Faith :=
  (s + 1, ⟨s, "No Faith", [], []⟩)

/-- Default construction `Culture()`: fresh id, `name="No Culture"`,
`ethos="neutral"`, empty traditions, `language="common"`, empty
innovations. -/
def mkCulture (s : ℕ) : ℕ × Culture :=
  (s + 1, ⟨s, "No Culture", "neutral", [], "common", []⟩)

/-- Default construction `County()`: the `default_factory` fields fire
per instantiation in declaration order — a fresh county id, then a fresh
`Culture()`, then a fresh `Faith()`. -/
def mkCountyDefault (s : ℕ) : ℕ × County :=
  let cid := s
  let rc := mkCulture (s + 1)
  let rf := mkFaith rc.1
  (rf.1, ⟨cid, "Unnamed County", rc.2, rf.2, 1, 100, none, none⟩)

/-- `Realm` dataclass (the fields the claims touch; `government`,
`laws`, `liege`/`vassals` carry no default-factory object identity and
are not involved in any claim). `ruler`/`controller` are `Character`s
modelled by id. -/
structure Realm where
  id : ℕ
  name : String
  faith : Faith
  culture : Culture
  counties : List County
  capital_county_id : Option ℕ
  ruler : Option ℕ
  controller : Option ℕ
  gold : ℤ
  prestige : ℤ
  piety : ℤ
deriving DecidableEq

/-- Default construction `Realm()`: fresh realm id, then a fresh
`Faith()`, then a fresh `Culture()` (declaration order in the source has
faith before culture). -/
def mkRealmDefault (s : ℕ) : ℕ × Realm :=
  let rid := s
  let rf := mkFaith (s + 1)
  let rc := mkCulture rf.1
  (rc.1, ⟨rid, "Unnamed Realm", rf.2, rc.2, [], none, none, none, 0, 0, 0⟩)

/-- `Realm.set_ruler`: assigns the ruler; the ruler also becomes the
controller only when no controller is currently set. -/
def Realm.set_ruler (r : Realm) (character : Option ℕ) : Realm :=
  { r with
    ruler := character,
    controller := if r.controller = none then character else r.controller }

/-- `Realm.set_controller`. -/
def Realm.set_controller (r : Realm) (character : Option ℕ) : Realm :=
  { r with controller := character }

/-- `Realm.effective_ruler`: `self.controller or self.ruler` — a
`Character` object is always truthy and `None` is falsy, so this is the
controller when set, else the ruler. -/
def Realm.effective_ruler (r : Realm) : Option ℕ :=
  match r.controller with
  | some c => some c
  | none => r.ruler

/-- `Realm.add_county`: append only when the id is not already present;
stamp the county's `realm_id` (the Python code mutates the very object
that is appended); make it capital when requested or when there is no
capital yet. -/
def Realm.add_county (r : Realm) (county : County) (make_capital : Bool) : Realm :=
  let county2 := { county with realm_id := some r.id }
  { r with
    counties :=
      if county.id ∈ r.counties.map County.id then r.counties
      else r.counties ++ [county2],
    capital_county_id :=
      if make_capital ∨ r.capital_county_id = none then some county.id
      else r.capital_county_id }

/-- `Realm.remove_county`: drop all counties with the id; if the capital
was removed, the first remaining county (if any) becomes capital. -/
def Realm.remove_county (r : Realm) (county_id : ℕ) : Realm :=
  let counties2 := r.counties.filter (fun c => c.id != county_id)
  { r with
    counties := counties2,
    capital_county_id :=
      if r.capital_county_id = some county_id then
        match counties2 with
        | [] => none
        | c :: _ => some c.id
      else r.capital_county_id }

/-- A county-management call on a realm. -/
inductive RealmOp where
  | add (county : County) (make_capital : Bool)
  | remove (county_id : ℕ)

/-- Apply one county-management call. -/
def applyRealmOp (r : Realm) : RealmOp → Realm
  | .add c mk => r.add_county c mk
  | .remove cid => r.remove_county cid

/-- Apply a sequence of county-management calls in order. -/
def applyRealmOps (r : Realm) (ops : List RealmOp) : Realm :=
  ops.foldl applyRealmOp r

/-- The capital/county bookkeeping invariant: no capital on an empty
realm, the capital id belongs to some current county otherwise, and no
two counties share an id. -/
def realmCountiesInv (r : Realm) : Prop :=
  (r.counties = [] → r.capital_county_id = none) ∧
  (r.counties ≠ [] → ∃ c ∈ r.counties, r.capital_county_id = some c.id) ∧
  (r.counties.map County.id).Nodup

/-- A store of faith names keyed by object id, modelling the mutable
`name` attribute of `Faith` objects on the Python heap. -/
def writeFaithName (store : ℕ → String) (fid : ℕ) (newName : String) : ℕ → String :=
  Function.update store fid newName

/-! ## Skills (embedded from `character.py`)

A Python instance stores its six skill attributes in its `__dict__`;
`setattr` with any other name would add a further entry, modelled by the
`extra` association list. -/

/-- The `Skills` holder: the six named skills set in `__init__`, plus
dynamically added attributes. -/
structure Skills where
  diplomacy : ℤ
  martial : ℤ
  stewardship : ℤ
  intrigue : ℤ
  learning : ℤ
  prowess : ℤ
  extra : List (String × ℤ)
deriving DecidableEq

/-- `Skills.get(name)` = `getattr(self, name)`: look the name up among
the instance attributes; a missing attribute is an `AttributeError`,
modelled as `none`. -/
def Skills.get (s : Skills) (name : String) : Option ℤ :=
  if name = "diplomacy" then some s.diplomacy
  else if name = "martial" then some s.martial
  else if name = "stewardship" then some s.stewardship
  else if name = "intrigue" then some s.intrigue
  else if name = "learning" then some s.learning
  else if name = "prowess" then some s.prowess
  else s.extra.lookup name

/-- `Skills.set(name, value)` = `setattr(self, name, value)`: overwrite
the named attribute, creating it when absent. -/
def Skills.set (s : Skills) (name : String) (value : ℤ) : Skills :=
  if name = "diplomacy" then { s with diplomacy := value }
  else if name = "martial" then { s with martial := value }
  else if name = "stewardship" then { s with stewardship := value }
  else if name = "intrigue" then { s with intrigue := value }
  else if name = "learning" then { s with learning := value }
  else if name = "prowess" then { s with prowess := value }
  else { s with extra := (name, value) :: s.extra }

/-- The six skill field names of the `SkillName` enum. -/
def skillNames : List String :=
  ["diplomacy", "martial", "stewardship", "intrigue", "learning", "prowess"]

/-- Python `round` (banker's rounding): ties go to the even integer. -/
noncomputable def pythonRound (x : ℝ) : ℤ :=
  if Int.fract x = 1 / 2 then (if Even ⌊x⌋ then ⌊x⌋ else ⌊x⌋ + 1)
  else round x

/-- `Skills._generate_skill_value` as a function of the Gaussian draw
`random.gauss(5, 3)`: round the draw, then clamp with
`max(0, min(20, value))`. -/
noncomputable def generate_skill_value (draw : ℝ) : ℤ :=
  max 0 (min 20 (pythonRound draw))

/-- Default construction `Skills()` with all six arguments left `None`:
each field is an independent `_generate_skill_value` draw. -/
noncomputable def mkSkillsDefault (g1 g2 g3 g4 g5 g6 : ℝ) : Skills :=
  ⟨generate_skill_value g1, generate_skill_value g2, generate_skill_value g3,
   generate_skill_value g4, generate_skill_value g5, generate_skill_value g6, []⟩

/-! ## Concrete example inputs used by the witnesses -/

/-- The spec §8 example ledger: counts `{children 100, adults 300,
elders 50}`, fertility `0.06`, mortality `{0.015, 0.010, 0.050}`,
`yearsInGroup {16, 44, 20}`. -/
def exampleLedger : Ledger :=
  ⟨fun c => match c with | .children => 100 | .adults => 300 | .elders => 50,
   mkRat 6 100,
   fun c => match c with | .children => mkRat 15 1000 | .adults => mkRat 1 100 | .elders => mkRat 5 100,
   fun c => match c with | .children => 16 | .adults => 44 | .elders => 20,
   fun _ => 1, fun _ => 1, fun _ => 1⟩

/-- An independently constructed ledger sharing `exampleLedger`'s counts
and rate tables but with different contribution weights. -/
def exampleLedgerB : Ledger :=
  ⟨fun c => match c with | .children => 100 | .adults => 300 | .elders => 50,
   mkRat 6 100,
   fun c => match c with | .children => mkRat 15 1000 | .adults => mkRat 1 100 | .elders => mkRat 5 100,
   fun c => match c with | .children => 16 | .adults => 44 | .elders => 20,
   fun _ => mkRat 1 2, fun _ => mkRat 1 2, fun _ => mkRat 1 2⟩

/-- A ledger with `children = 5` and no other population, for the
rejection example `add(children, -1000)`. -/
def exampleLedgerSmall : Ledger :=
  ⟨fun c => match c with | .children => 5 | .adults => 0 | .elders => 0,
   mkRat 6 100, fun _ => mkRat 1 100, fun _ => 20, fun _ => 1, fun _ => 1, fun _ => 1⟩

/-- A sample call sequence for the invariant witness. -/
def exampleOps : List LedgerOp :=
  [.add .children 10, .tick 30, .add .adults (-5), .tick 30]

/-- A default-constructed county (allocation counter starting at 0). -/
def exampleCountyA : County := (mkCountyDefault 0).2

/-- A second default-constructed county, built right after
`exampleCountyA` from the advanced allocation counter. -/
def exampleCountyB : County := (mkCountyDefault (mkCountyDefault 0).1).2

/-- A default-constructed realm with no counties. -/
def exampleRealm : Realm := (mkRealmDefault 50).2

/-- The same realm with a controller installed, for the `set_ruler`
witness. -/
def exampleRealmControlled : Realm := { exampleRealm with controller := some 9 }

/-- A sample county-management call sequence. -/
def exampleRealmOps : List RealmOp :=
  [.add exampleCountyA false, .add exampleCountyB true, .remove exampleCountyA.id]

/-- A concrete skills record (the values given to character `a` in the
source's `__main__` block). -/
def exampleSkills : Skills := ⟨6, 4, 7, 3, 5, 2, []⟩

/-! ### Arithmetic facts about the expectation formula -/

lemma expectedEvents_nonneg (count : ℤ) (rate dt : ℚ) :
    0 ≤ expectedEvents count rate dt := by
  unfold expectedEvents
  split
  · exact le_refl 0
  · next h =>
    push_neg at h
    obtain ⟨hc, hr, hd⟩ := h
    refine Int.le_floor.mpr ?_
    push_cast
    refine mul_nonneg (by exact_mod_cast hc.le) ?_
    have hx : (0 : ℝ) ≤ (rate : ℝ) * (dt : ℝ) := by
      have : (0 : ℚ) ≤ rate * dt := mul_nonneg hr.le hd.le
      exact_mod_cast this
    have := Real.exp_le_one_iff.mpr (neg_nonpos.mpr hx)
    linarith

lemma expectedEvents_le_count (count : ℤ) (rate dt : ℚ) (h : 0 ≤ count) :
    expectedEvents count rate dt ≤ count := by
  unfold expectedEvents
  split
  · exact h
  · next hg =>
    push_neg at hg
    have hexp : (0 : ℝ) < Real.exp (-((rate : ℝ) * (dt : ℝ))) := Real.exp_pos _
    have hle : (count : ℝ) * (1 - Real.exp (-((rate : ℝ) * (dt : ℝ)))) ≤ (count : ℝ) := by
      have h1 : (1 : ℝ) - Real.exp (-((rate : ℝ) * (dt : ℝ))) ≤ 1 := by linarith
      have hc : (0 : ℝ) ≤ (count : ℝ) := by exact_mod_cast h
      nlinarith
    calc ⌊(count : ℝ) * (1 - Real.exp (-((rate : ℝ) * (dt : ℝ))))⌋
        ≤ ⌊(count : ℝ)⌋ := Int.floor_mono hle
      _ = count := Int.floor_intCast count

lemma sub_expectedEvents_nonneg (count : ℤ) (rate dt : ℚ) (h : 0 ≤ count) :
    0 ≤ count - expectedEvents count rate dt :=
  sub_nonneg.mpr (expectedEvents_le_count count rate dt h)

lemma tick_counts_nonneg (L : Ledger) (d : ℚ) (h : ∀ c, 0 ≤ L.counts c) :
    ∀ c, 0 ≤ ((tick L d).1).counts c := by
  intro c
  cases c
  case children =>
    simp only [tick]
    exact sub_expectedEvents_nonneg _ _ _
      (sub_expectedEvents_nonneg _ _ _
        (add_nonneg (h .children) (expectedEvents_nonneg _ _ _)))
  case adults =>
    simp only [tick]
    exact sub_expectedEvents_nonneg _ _ _
      (sub_expectedEvents_nonneg _ _ _
        (add_nonneg (h .adults) (expectedEvents_nonneg _ _ _)))
  case elders =>
    simp only [tick]
    exact sub_expectedEvents_nonneg _ _ _
      (add_nonneg (h .elders) (expectedEvents_nonneg _ _ _))

lemma applyAdd_counts_nonneg (L : Ledger) (c : Cohort) (delta : ℤ)
    (h : ∀ x, 0 ≤ L.counts x) :
    ∀ x, 0 ≤ (applyLedgerOp L (.add c delta)).counts x := by
  intro x
  by_cases hp : L.counts c + delta < 0
  · simp only [applyLedgerOp, Ledger.add, if_pos hp]
    exact h x
  · simp only [applyLedgerOp, Ledger.add, if_neg hp]
    by_cases hx : x = c
    · subst hx
      simp only [Function.update_same]
      omega
    · simp only [Function.update_noteq hx]
      exact h x

lemma total_eq_enum (L : Ledger) :
    L.total = L.counts .children + L.counts .adults + L.counts .elders := by
  have huniv : (Finset.univ : Finset Cohort) =
      {Cohort.children, Cohort.adults, Cohort.elders} := by decide
  rw [Ledger.total, huniv]
  rw [Finset.sum_insert (by decide), Finset.sum_insert (by decide), Finset.sum_singleton]
  ring

/-- C1: `tick` is deterministic — two independently constructed ledgers
agreeing on starting counts and all rate tables give identical
`FlowReport`s for `tick(30)`, and for every `deltaDays` the report and
resulting counts agree call for call; `tick` is a pure function of the
ledger state and uses no randomness. -/
theorem tick_deterministic (L1 L2 : Ledger)
    (hc : L1.counts = L2.counts)
    (hf : L1.fertilityPerAdultPerYear = L2.fertilityPerAdultPerYear)
    (hm : L1.mortalityPerYear = L2.mortalityPerYear)
    (hy : L1.yearsInGroup = L2.yearsInGroup) :
    (tick L1 30).2 = (tick L2 30).2 ∧
    ∀ d : ℚ, (tick L1 d).2 = (tick L2 d).2 ∧
      ((tick L1 d).1).counts = ((tick L2 d).1).counts := by
  have key : ∀ d : ℚ, (tick L1 d).2 = (tick L2 d).2 ∧
      ((tick L1 d).1).counts = ((tick L2 d).1).counts := by
    intro d
    simp only [tick, hc, hf, hm, hy]
    exact ⟨trivial, trivial⟩
  exact ⟨(key 30).1, key⟩

/-- C1 witness: two concretely constructed ledgers with identical counts
and rate tables (but different contribution weights) give the same
`tick(30)` report. -/
theorem tick_deterministic_witness :
    exampleLedger.counts = exampleLedgerB.counts ∧
    (tick exampleLedger 30).2 = (tick exampleLedgerB 30).2 :=
  ⟨rfl, (tick_deterministic exampleLedger exampleLedgerB rfl rfl rfl rfl).1⟩

/-- C2: starting from any ledger with non-negative cohort counts, every
sequence of `add`/`tick` calls keeps every cohort count ≥ 0, and
`total()` equals the sum of the cohort counts. Arbitrary sequences are
quantified, so every intermediate state (a shorter sequence) is covered. -/
theorem ledger_nonneg_invariant (L : Ledger) (h : ∀ c, 0 ≤ L.counts c)
    (ops : List LedgerOp) :
    (∀ c, 0 ≤ (applyLedgerOps L ops).counts c) ∧
    (applyLedgerOps L ops).total =
      (applyLedgerOps L ops).counts .children + (applyLedgerOps L ops).counts .adults +
        (applyLedgerOps L ops).counts .elders := by
  refine ⟨?_, total_eq_enum _⟩
  induction ops generalizing L with
  | nil => simpa [applyLedgerOps] using h
  | cons op rest ih =>
    have hstep : ∀ c, 0 ≤ (applyLedgerOp L op).counts c := by
      cases op with
      | add c delta => exact applyAdd_counts_nonneg L c delta h
      | tick d => exact tick_counts_nonneg L d h
    simpa [applyLedgerOps, List.foldl_cons] using ih _ hstep

/-- C2 witness: the spec §8 example ledger stays non-negative through a
concrete `add`/`tick` sequence. -/
theorem ledger_nonneg_invariant_witness :
    0 ≤ exampleLedger.counts .children ∧ 0 ≤ exampleLedger.counts .adults ∧
    0 ≤ exampleLedger.counts .elders ∧
    0 ≤ (applyLedgerOps exampleLedger exampleOps).counts .children := by
  have h : ∀ c, 0 ≤ exampleLedger.counts c := by decide
  exact ⟨h .children, h .adults, h .elders,
    (ledger_nonneg_invariant exampleLedger h exampleOps).1 .children⟩

/-- C3: `add(cohort, delta)` fails with `InvalidArgument` exactly when
the resulting count would be negative, and a failing `add` leaves the
ledger completely unchanged (no partial application). -/
theorem add_rejects_iff (L : Ledger) (c : Cohort) (delta : ℤ) :
    (L.add c delta = .error .invalidArgument ↔ L.counts c + delta < 0) ∧
    (L.counts c + delta < 0 → applyLedgerOp L (.add c delta) = L) := by
  constructor
  · constructor
    · intro h
      by_contra hp
      simp [Ledger.add, if_neg hp] at h
    · intro hp
      simp [Ledger.add, if_pos hp]
  · intro hp
    simp [applyLedgerOp, Ledger.add, if_pos hp]

/-- C3 witness: `add(children, -1000)` on a ledger with `children = 5`
fails with `InvalidArgument` and leaves all counts unchanged. -/
theorem add_rejects_iff_witness :
    exampleLedgerSmall.counts .children + (-1000) < 0 ∧
    exampleLedgerSmall.add .children (-1000) = .error .invalidArgument ∧
    applyLedgerOp exampleLedgerSmall (.add .children (-1000)) = exampleLedgerSmall := by
  have h := add_rejects_iff exampleLedgerSmall .children (-1000)
  have hlt : exampleLedgerSmall.counts .children + (-1000) < 0 := by decide
  exact ⟨hlt, h.1.mpr hlt, h.2 hlt⟩

/-- C4: with a positive pre-tick adult count, positive fertility rate
and positive `deltaDays`, the tick's birth count is
`adults * (1 - exp(-fertilityRate * dtYears))` with `dtYears =
deltaDays/365`, truncated to an integer (the value is non-negative, so
floor is truncation toward zero), computed from the pre-tick adult
count; and exactly that number is added to `children` (the post-tick
children count is the pre-tick count plus the births, minus only the
aging-out and death flows). -/
theorem tick_births_formula (L : Ledger) (d : ℚ)
    (hA : 0 ≤ L.counts .adults) (hf : 0 < L.fertilityPerAdultPerYear) (hd : 0 < d) :
    (tick L d).2.births =
      ⌊(L.counts .adults : ℝ) *
        (1 - Real.exp (-((L.fertilityPerAdultPerYear : ℝ) * ((d : ℝ) / 365))))⌋ ∧
    ((tick L d).1).counts .children =
      L.counts .children + (tick L d).2.births
        - (tick L d).2.agedChildrenToAdults - (tick L d).2.deathsChildren := by
  constructor
  · have hdt : (0 : ℚ) < d / 365 := by positivity
    rcases eq_or_lt_of_le hA with hz | hpos
    · simp only [tick]
      unfold expectedEvents
      rw [if_pos (by left; omega), ← hz]
      norm_num
    · simp only [tick]
      unfold expectedEvents
      rw [if_neg (by push_neg; exact ⟨hpos, hf, hdt⟩)]
      norm_cast
  · simp only [tick]

/-- C4 witness: the spec §8 example ledger with `tick(30)` satisfies the
birth-accounting equation. -/
theorem tick_births_formula_witness :
    0 < exampleLedger.counts .adults ∧
    0 < exampleLedger.fertilityPerAdultPerYear ∧ (0 : ℚ) < 30 ∧
    ((tick exampleLedger 30).1).counts .children =
      exampleLedger.counts .children + (tick exampleLedger 30).2.births
        - (tick exampleLedger 30).2.agedChildrenToAdults
        - (tick exampleLedger 30).2.deathsChildren :=
  ⟨by decide, by decide, by decide,
    (tick_births_formula exampleLedger 30 (by decide) (by decide) (by decide)).2⟩

/-- C5: `contributions()` is a total function; when `adults = 0` the
dependency ratio is the tagged-undefined sentinel `none` instead of an
error, and when `adults > 0` it equals `(children + elders) / adults`. -/
theorem contributions_dependency (L1 L2 : Ledger)
    (h1 : L1.counts .adults = 0) (h2 : 0 < L2.counts .adults) :
    (contributions L1).dependencyRatio = none ∧
    (contributions L2).dependencyRatio =
      some (((L2.counts .children + L2.counts .elders : ℤ) : ℚ) / (L2.counts .adults : ℚ)) := by
  constructor
  · simp [contributions, h1]
  · simp [contributions, h2.ne']

/-- C5 witness: a ledger with no adults gets the `none` sentinel; the
spec §8 example ledger (300 adults) gets the actual ratio. -/
theorem contributions_dependency_witness :
    exampleLedgerSmall.counts .adults = 0 ∧ 0 < exampleLedger.counts .adults ∧
    (contributions exampleLedgerSmall).dependencyRatio = none := by
  have h := contributions_dependency exampleLedgerSmall exampleLedger (by decide) (by decide)
  exact ⟨by decide, by decide, h.1⟩

/-! ### Realm county-management invariant -/

lemma add_county_inv (r : Realm) (c : County) (mk : Bool)
    (h : realmCountiesInv r) : realmCountiesInv (r.add_county c mk) := by
  obtain ⟨hemp, hne, hnd⟩ := h
  unfold Realm.add_county realmCountiesInv
  dsimp only
  by_cases hmem : c.id ∈ r.counties.map County.id
  · rw [if_pos hmem]
    have hnonempty : r.counties ≠ [] := by
      intro he
      rw [he] at hmem
      simp at hmem
    by_cases hcap : (mk : Prop) ∨ r.capital_county_id = none
    · rw [if_pos hcap]
      obtain ⟨c2, hc2, hid⟩ := List.mem_map.mp hmem
      exact ⟨fun he => absurd he hnonempty, fun _ => ⟨c2, hc2, by rw [hid]⟩, hnd⟩
    · rw [if_neg hcap]
      exact ⟨fun he => absurd he hnonempty, hne, hnd⟩
  · rw [if_neg hmem]
    have hnodup2 : ((r.counties ++ [{ c with realm_id := some r.id }]).map County.id).Nodup := by
      simp only [List.map_append, List.map_cons, List.map_nil]
      rw [List.nodup_append]
      exact ⟨hnd, List.nodup_singleton _, by simpa using hmem⟩
    have happmem : ({ c with realm_id := some r.id } : County) ∈
        r.counties ++ [{ c with realm_id := some r.id }] := by simp
    by_cases hcap : (mk : Prop) ∨ r.capital_county_id = none
    · rw [if_pos hcap]
      exact ⟨fun he => absurd he (by simp), fun _ => ⟨_, happmem, rfl⟩, hnodup2⟩
    · rw [if_neg hcap]
      push_neg at hcap
      refine ⟨fun he => absurd he (by simp), fun _ => ?_, hnodup2⟩
      have hcs : r.counties ≠ [] := by
        intro he
        exact hcap.2 (hemp he)
      obtain ⟨c2, hc2, hid⟩ := hne hcs
      exact ⟨c2, List.mem_append_left _ hc2, hid⟩

lemma remove_county_inv (r : Realm) (cid : ℕ)
    (h : realmCountiesInv r) : realmCountiesInv (r.remove_county cid) := by
  obtain ⟨hemp, hne, hnd⟩ := h
  unfold Realm.remove_county realmCountiesInv
  dsimp only
  have hnodup2 : ((r.counties.filter (fun cc => cc.id != cid)).map County.id).Nodup :=
    hnd.sublist (List.Sublist.map County.id (List.filter_sublist r.counties))
  by_cases hcap : r.capital_county_id = some cid
  · rw [if_pos hcap]
    cases hcs : r.counties.filter (fun cc => cc.id != cid) with
    | nil => exact ⟨fun _ => rfl, fun hne2 => absurd rfl hne2, by simp⟩
    | cons c0 tl =>
      exact ⟨fun he => absurd he (by simp), fun _ => ⟨c0, List.mem_cons_self c0 tl, rfl⟩,
        by simpa [hcs] using hnodup2⟩
  · rw [if_neg hcap]
    refine ⟨fun he => ?_, fun hne2 => ?_, hnodup2⟩
    · by_cases hcs : r.counties = []
      · exact hemp hcs
      · obtain ⟨c2, hc2, hid⟩ := hne hcs
        have hc2id : c2.id ≠ cid := by
          intro heq
          exact hcap (by rw [hid, heq])
        have hmem2 : c2 ∈ r.counties.filter (fun cc => cc.id != cid) := by
          simp [List.mem_filter, hc2, hc2id]
        rw [he] at hmem2
        simp at hmem2
    · have hcs : r.counties ≠ [] := by
        intro he2
        rw [he2] at hne2
        simp at hne2
      obtain ⟨c2, hc2, hid⟩ := hne hcs
      have hc2id : c2.id ≠ cid := by
        intro heq
        exact hcap (by rw [hid, heq])
      refine ⟨c2, ?_, hid⟩
      simp [List.mem_filter, hc2, hc2id]

lemma applyRealmOps_inv (r : Realm) (h : realmCountiesInv r) (ops : List RealmOp) :
    realmCountiesInv (applyRealmOps r ops) := by
  induction ops generalizing r with
  | nil => simpa [applyRealmOps] using h
  | cons op rest ih =>
    have hstep : realmCountiesInv (applyRealmOp r op) := by
      cases op with
      | add c mk => exact add_county_inv r c mk h
      | remove cid => exact remove_county_inv r cid h
    simpa [applyRealmOps, List.foldl_cons] using ih _ hstep

/-- C9: from a realm with no counties (and hence no capital), every
sequence of `add_county`/`remove_county` calls maintains
`realmCountiesInv`: the capital id is `none` exactly when there are no
counties and otherwise belongs to a current county, and the county id
list stays duplicate-free (`add_county` never inserts a second county
with an id already present). -/
theorem realm_capital_invariant (r : Realm)
    (h0 : r.counties = []) (h1 : r.capital_county_id = none) (ops : List RealmOp) :
    realmCountiesInv (applyRealmOps r ops) := by
  refine applyRealmOps_inv r ⟨fun _ => h1, fun hne => absurd h0 hne, ?_⟩ ops
  simp [h0]

/-- C9 witness: a default-constructed realm with a concrete
add/add/remove sequence satisfies the invariant. -/
theorem realm_capital_invariant_witness :
    exampleRealm.counties = [] ∧ exampleRealm.capital_county_id = none ∧
    realmCountiesInv (applyRealmOps exampleRealm exampleRealmOps) :=
  ⟨rfl, rfl, realm_capital_invariant exampleRealm rfl rfl exampleRealmOps⟩

/-- C10: `set_ruler` always installs the ruler; it promotes the new
ruler to controller only when there was no controller, and otherwise
leaves the controller alone; `effective_ruler` is the controller when
set and the ruler otherwise. -/
theorem set_ruler_contract (r : Realm) (ch : Option ℕ) :
    (r.set_ruler ch).ruler = ch ∧
    (r.controller = none → (r.set_ruler ch).controller = ch) ∧
    (r.controller ≠ none → (r.set_ruler ch).controller = r.controller) ∧
    (∀ x, r.controller = some x → r.effective_ruler = some x) ∧
    (r.controller = none → r.effective_ruler = r.ruler) := by
  refine ⟨rfl, ?_, ?_, ?_, ?_⟩
  · intro h
    simp [Realm.set_ruler, h]
  · intro h
    simp [Realm.set_ruler, h]
  · intro x h
    simp [Realm.effective_ruler, h]
  · intro h
    simp [Realm.effective_ruler, h]

/-- C10 witness: on a realm with no controller, `set_ruler` installs
ruler and controller; on a realm with controller `9`, `set_ruler` keeps
the controller, who is also the effective ruler. -/
theorem set_ruler_contract_witness :
    (exampleRealm.set_ruler (some 7)).ruler = some 7 ∧
    (exampleRealm.set_ruler (some 7)).controller = some 7 ∧
    (exampleRealmControlled.set_ruler (some 7)).controller = exampleRealmControlled.controller ∧
    exampleRealmControlled.effective_ruler = some 9 :=
  ⟨(set_ruler_contract exampleRealm (some 7)).1,
   (set_ruler_contract exampleRealm (some 7)).2.1 rfl,
   (set_ruler_contract exampleRealmControlled (some 7)).2.2.1 (by decide),
   (set_ruler_contract exampleRealmControlled (some 7)).2.2.2.1 9 rfl⟩

/-- C6 counterexample: two `County` values default-constructed in
sequence do not share their default `Faith`/`Culture`: the
`default_factory` fields allocate fresh objects (fresh ids) at each
construction, so the claimed aliasing of one shared default object is
false already for the first two constructions. -/
theorem default_county_faith_not_shared :
    exampleCountyA.faith.id ≠ exampleCountyB.faith.id ∧
    exampleCountyA.culture.id ≠ exampleCountyB.culture.id := by decide

/-- C6 (amended): every two `County` (or `Realm`) values constructed
without explicit faith/culture arguments receive fresh, distinct
`Faith`/`Culture` objects (dataclass `default_factory` runs per
instantiation), and mutating the first county's faith (here: its `name`
on the id-keyed heap) is not observable through the second county's
faith. -/
theorem default_faith_culture_fresh (s : ℕ) (store : ℕ → String) (newName : String) :
    ((mkCountyDefault s).2).faith.id ≠ ((mkCountyDefault (mkCountyDefault s).1).2).faith.id ∧
    ((mkCountyDefault s).2).culture.id ≠ ((mkCountyDefault (mkCountyDefault s).1).2).culture.id ∧
    ((mkRealmDefault s).2).faith.id ≠ ((mkRealmDefault (mkRealmDefault s).1).2).faith.id ∧
    ((mkRealmDefault s).2).culture.id ≠ ((mkRealmDefault (mkRealmDefault s).1).2).culture.id ∧
    writeFaithName store ((mkCountyDefault s).2).faith.id newName
        ((mkCountyDefault (mkCountyDefault s).1).2).faith.id =
      store ((mkCountyDefault (mkCountyDefault s).1).2).faith.id := by
  refine ⟨?_, ?_, ?_, ?_, ?_⟩
  · simp only [mkCountyDefault, mkCulture, mkFaith]
    omega
  · simp only [mkCountyDefault, mkCulture, mkFaith]
    omega
  · simp only [mkRealmDefault, mkCulture, mkFaith]
    omega
  · simp only [mkRealmDefault, mkCulture, mkFaith]
    omega
  · unfold writeFaithName
    refine Function.update_noteq ?_ _ _
    simp only [mkCountyDefault, mkCulture, mkFaith]
    omega

/-- C7: for every skill name among the six, `set` followed by `get` of
the same name returns the written value, and `get` of any other skill
name is unchanged by the `set`. -/
theorem skills_get_set_roundtrip (s : Skills) (v : ℤ) (n m : String)
    (hn : n ∈ skillNames) (hm : m ∈ skillNames) (hmn : m ≠ n) :
    (s.set n v).get n = some v ∧ (s.set n v).get m = s.get m := by
  simp only [skillNames, List.mem_cons, List.not_mem_nil, or_false] at hn hm
  rcases hn with rfl | rfl | rfl | rfl | rfl | rfl <;>
    rcases hm with rfl | rfl | rfl | rfl | rfl | rfl <;>
    first
      | exact absurd rfl hmn
      | exact ⟨rfl, rfl⟩

/-- C7 witness: writing `diplomacy := 20` on a concrete skills record is
read back, and `martial` is untouched. -/
theorem skills_get_set_roundtrip_witness :
    (exampleSkills.set "diplomacy" 20).get "diplomacy" = some 20 ∧
    (exampleSkills.set "diplomacy" 20).get "martial" = exampleSkills.get "martial" :=
  skills_get_set_roundtrip exampleSkills 20 "diplomacy" "martial"
    (by decide) (by decide) (by decide)

/-- C8: for every outcome of the six Gaussian draws, each skill of a
default-constructed `Skills()` (produced by `_generate_skill_value`:
round then clamp with `max(0, min(20, ·))`) is an integer in `[0, 20]`. -/
theorem skills_default_range (g1 g2 g3 g4 g5 g6 : ℝ) :
    (0 ≤ (mkSkillsDefault g1 g2 g3 g4 g5 g6).diplomacy ∧
      (mkSkillsDefault g1 g2 g3 g4 g5 g6).diplomacy ≤ 20) ∧
    (0 ≤ (mkSkillsDefault g1 g2 g3 g4 g5 g6).martial ∧
      (mkSkillsDefault g1 g2 g3 g4 g5 g6).martial ≤ 20) ∧
    (0 ≤ (mkSkillsDefault g1 g2 g3 g4 g5 g6).stewardship ∧
      (mkSkillsDefault g1 g2 g3 g4 g5 g6).stewardship ≤ 20) ∧
    (0 ≤ (mkSkillsDefault g1 g2 g3 g4 g5 g6).intrigue ∧
      (mkSkillsDefault g1 g2 g3 g4 g5 g6).intrigue ≤ 20) ∧
    (0 ≤ (mkSkillsDefault g1 g2 g3 g4 g5 g6).learning ∧
      (mkSkillsDefault g1 g2 g3 g4 g5 g6).learning ≤ 20) ∧
    (0 ≤ (mkSkillsDefault g1 g2 g3 g4 g5 g6).prowess ∧
      (mkSkillsDefault g1 g2 g3 g4 g5 g6).prowess ≤ 20) := by
  have key : ∀ g : ℝ, 0 ≤ generate_skill_value g ∧ generate_skill_value g ≤ 20 := by
    intro g
    unfold generate_skill_value
    refine ⟨le_max_left 0 _, max_le (by norm_num) (min_le_left _ _)⟩
  exact ⟨key g1, key g2, key g3, key g4, key g5, key g6⟩

end VideoGameIdea
